import Mathlib

/-!
Verification of the PeerDB QRep orchestrator (`flow/workflows/qrep_flow.go`),
the dynamic-setting resolver (`peerdbenv` catalog lookup), and the
`RecordItems` JSON projection, against their natural-language specification.

The Go source is shallowly embedded: pure helpers become Lean functions,
the single cycle of the durable workflow (between two continue-as-new
boundaries) becomes a function from the cycle's inputs (config, state, and
an environment record holding the results of activity calls and the signals
received) to an outcome holding the post-state, the post-config and the
ordered trace of external effects.  Activities are modelled as succeeding;
every claim below quantifies over cycles that complete without error.
-/

namespace PeerDB

/-- Modelled from the spec: `shared.DivCeil`, ceiling division on
non-negative integers (the helper itself is not part of the provided
sources; the spec describes the chunk count as `ceil(len/maxParallelWorkers)`). -/
def divCeil (x y : Nat) : Nat := (x + y - 1) / y

/-- Structural helper for `chunkList`.  The recursion is on `fuel`,
initialised to the list's length; every step removes at least one element
when `0 < n`, so the fuel never runs out at a call site.  The
fuel-exhausted and `n = 0` arms are unreachable there (in Go, a zero chunk
size would loop forever; the chunk size is always a ceiling division of a
positive length). -/
def chunkListAux (n : Nat) : Nat → List α → List (List α)
  | _, [] => []
  | 0, xs => [xs]
  | fuel + 1, xs =>
    if n = 0 then [xs] else xs.take n :: chunkListAux n fuel (xs.drop n)

/-- The Go loop `for i := 0; i < len(xs); i += n` slicing `xs[i:min(i+n,len)]`:
consecutive slices of length `n` (the last one possibly shorter). -/
def chunkList (n : Nat) (xs : List α) : List (List α) :=
  chunkListAux n xs.length xs

/-- Go `strings.HasSuffix`. -/
def goHasSuffix (s suffix : String) : Bool := suffix.data.isSuffixOf s.data

/-- Go `strings.TrimSuffix`: drops one trailing occurrence of `suffix` when
present, otherwise returns `s` unchanged. -/
def goTrimSuffix (s suffix : String) : String :=
  if goHasSuffix s suffix then ⟨s.data.take (s.data.length - suffix.data.length)⟩ else s

theorem goTrimSuffix_append (t suffix : String) :
    goTrimSuffix (t ++ suffix) suffix = t := by
  have hdata : (t ++ suffix).data = t.data ++ suffix.data := rfl
  have hsuf : goHasSuffix (t ++ suffix) suffix = true := by
    simp only [goHasSuffix, hdata, List.isSuffixOf_iff_suffix]
    exact List.suffix_append t.data suffix.data
  simp only [goTrimSuffix, hsuf, if_pos, hdata, List.length_append]
  have : t.data.length + suffix.data.length - suffix.data.length = t.data.length := by omega
  rw [this, List.take_left]

/-! ## Data model (`protos`, `model` packages) -/

/-- `protos.FlowStatus`. -/
inductive FlowStatus
  | setup
  | running
  | pausing
  | paused
  | completed
  | failed
deriving DecidableEq, Repr

/-- `protos.QRepWriteType`. -/
inductive QRepWriteType
  | append
  | overwrite
  | upsert
deriving DecidableEq, Repr

/-- `protos.QRepPartition`.  `Range` is opaque to the orchestrator (only the
connector interprets it), so it is embedded abstractly; a `none` range is the
proto's nil range. -/
structure QRepPartition where
  partitionId : String
  range : Option Unit
deriving DecidableEq, Repr

/-- `protos.QRepPartitionBatch`. -/
structure QRepPartitionBatch where
  batchId : Int
  partitions : List QRepPartition
deriving DecidableEq, Repr

/-- `protos.QRepFlowState`.  `LastPartition` is a proto pointer, so a nil
pointer is modelled as `none`. -/
structure QRepFlowState where
  lastPartition : Option QRepPartition
  numPartitionsProcessed : Nat
  needsResync : Bool
  currentFlowStatus : FlowStatus
deriving DecidableEq, Repr

/-- The fields of `protos.QRepConfig` read by the orchestrator cycle.
`maxParallelWorkers` and `waitBetweenBatchesSeconds` are `uint32` in the
proto, hence `Nat`. -/
structure QRepConfig where
  flowJobName : String
  destinationTableIdentifier : String
  watermarkTable : String
  initialCopyOnly : Bool
  dstTableFullResync : Bool
  setupWatermarkTableOnDestination : Bool
  maxParallelWorkers : Nat
  waitBetweenBatchesSeconds : Nat
  writeMode : QRepWriteType
deriving DecidableEq, Repr

/-- `InitialLastPartition`: the sentinel cursor meaning "no progress yet". -/
def InitialLastPartition : QRepPartition :=
  { partitionId := "not-applicable-partition", range := none }

/-- `newQRepFlowState`: the state of a fresh flow. -/
def newQRepFlowState : QRepFlowState :=
  { lastPartition := some InitialLastPartition
    numPartitionsProcessed := 0
    needsResync := true
    currentFlowStatus := .running }

/-- Modelled from the spec: `model.CDCFlowSignal` (the `model` package is not
among the provided sources).  The spec describes the signal payload as the
sum `{NoopSignal, PauseSignal, ResumeSignal}`. -/
inductive CDCFlowSignal
  | noop
  | pause
  | resume
deriving DecidableEq, Repr

/-- Modelled from the spec: `model.FlowSignalHandler` "folds a new signal
into the active one; Pause is sticky until an explicit resume". -/
def FlowSignalHandler (active incoming : CDCFlowSignal) : CDCFlowSignal :=
  match incoming with
  | .pause => .pause
  | .resume => .resume
  | .noop => active

/-! ## Partition fan-out (`processPartitions`) -/

/-- The batch-forming part of `QRepFlowExecution.processPartitions`: on an
empty list it returns immediately with no children; otherwise it slices the
list into consecutive chunks of `shared.DivCeil(len, maxParallelWorkers)`
partitions and starts one child per chunk, assigning `BatchId = i + 1` in
slice order.  The returned list holds the batches of the spawned children, in
spawn order. -/
def processPartitions (maxParallelWorkers : Nat) (partitions : List QRepPartition) :
    List QRepPartitionBatch :=
  if partitions.isEmpty then []
  else
    let chunkSize := divCeil partitions.length maxParallelWorkers
    let batches := chunkList chunkSize partitions
    batches.enum.map fun p => { batchId := (p.1 : Int) + 1, partitions := p.2 }

/-! ## One cycle of `QRepFlowWorkflow`

A cycle runs from one continue-as-new boundary to the next.  External
dependencies are gathered in `CycleEnv`: the value returned by the
full-refresh setting oracle, the partitions returned by `GetQRepPartitions`,
and the signals received at each of the three points where the workflow
reads its signal channel.  Activities are modelled as succeeding. -/

/-- An external effect performed by the cycle, in program order. -/
inductive Event
  | setupTableSchema (table : String)
  | createNormalizedTable (dst : String)
  | setupMetadataTables
  | createTablesFromExisting (newTable existing : String)
  | waitForNewRows (cursor : QRepPartition)
  | getPartitions (cursor : Option QRepPartition)
  | childSpawned (batch : QRepPartitionBatch)
  | consolidate
  | cleanup
  | renameTables (currentName newName : String)
  | syncStatus (status : FlowStatus)
deriving DecidableEq, Repr

/-- Results of the cycle's external interactions. -/
structure CycleEnv where
  /-- `workflow.GetInfo(ctx).ParentWorkflowExecution == nil`. -/
  isRoot : Bool
  /-- Value the setting oracle (`getQRepOverwriteFullRefreshMode`) reports. -/
  fullRefreshMode : Bool
  /-- Signals received while blocked in the pause gate. -/
  pauseGateSignals : List CDCFlowSignal
  /-- Signals received while waiting inside `waitForNewRows`. -/
  waitSignals : List CDCFlowSignal
  /-- Partitions returned by the `GetQRepPartitions` activity. -/
  discoveredPartitions : List QRepPartition
  /-- Signals pending in the final non-blocking drain. -/
  drainSignals : List CDCFlowSignal
deriving Repr

/-- How the cycle ended. -/
inductive CycleOutcome
  /-- Entry short-circuit: `state.CurrentFlowStatus == COMPLETED`. -/
  | alreadyCompleted (state : QRepFlowState)
  /-- The pause gate never received a resume: the source loops forever on
  the 1-minute receive timeout, so the cycle does not end. -/
  | blockedInPauseGate
  /-- `workflow.NewContinueAsNewError(ctx, QRepFlowWorkflow, config, state)`
  with the events the cycle performed, in order. -/
  | continueAsNew (state : QRepFlowState) (config : QRepConfig) (events : List Event)
deriving Repr

/-- `updateStatus`: set the status, mirroring it to the catalog when running
at root. -/
def updateStatus (isRoot : Bool) (state : QRepFlowState) (status : FlowStatus) :
    QRepFlowState × List Event :=
  ({ state with currentFlowStatus := status }, if isRoot then [Event.syncStatus status] else [])

/-- `QRepFlowExecution.handleTableCreationForResync`: when a resync is due,
create the shadow table `<dest>_peerdb_resync` from the existing `<dest>`
and point the config at the shadow. -/
def handleTableCreationForResync (config : QRepConfig) (state : QRepFlowState) :
    QRepConfig × List Event :=
  if state.needsResync && config.dstTableFullResync then
    let renamedTableIdentifier := config.destinationTableIdentifier ++ "_peerdb_resync"
    ({ config with destinationTableIdentifier := renamedTableIdentifier },
     [Event.createTablesFromExisting renamedTableIdentifier config.destinationTableIdentifier])
  else (config, [])

/-- `QRepFlowExecution.handleTableRenameForResync`: when a resync is due,
fetch the shadow table's schema, rename it over the original (obtained by
trimming the `_peerdb_resync` suffix) and point the config back at the
original.  `state.NeedsResync` is cleared unconditionally at the end. -/
def handleTableRenameForResync (config : QRepConfig) (state : QRepFlowState) :
    QRepConfig × QRepFlowState × List Event :=
  if state.needsResync && config.dstTableFullResync then
    let oldTableIdentifier := goTrimSuffix config.destinationTableIdentifier "_peerdb_resync"
    ({ config with destinationTableIdentifier := oldTableIdentifier },
     { state with needsResync := false },
     [Event.setupTableSchema config.destinationTableIdentifier,
      Event.renameTables config.destinationTableIdentifier oldTableIdentifier])
  else (config, { state with needsResync := false }, [])

/-- The `maxParallelWorkers` defaulting (qrep_flow.go:545-548): a
non-positive configured value falls back to 16. -/
def defaultMaxParallelWorkers (config : QRepConfig) : Nat :=
  if config.maxParallelWorkers > 0 then config.maxParallelWorkers else 16

/-- Events of the destination/metadata setup phase
(`setupWatermarkTableOnDestination` then `SetupMetadataTables`,
qrep_flow.go:550-557). -/
def setupPhaseEvents (config : QRepConfig) : List Event :=
  (if config.setupWatermarkTableOnDestination then
    [Event.setupTableSchema config.watermarkTable,
     Event.createNormalizedTable config.destinationTableIdentifier]
  else []) ++ [Event.setupMetadataTables]

/-- The `fullRefresh` flag (qrep_flow.go:563-569): OVERWRITE write mode and
the setting oracle reporting full-refresh mode. -/
def fullRefreshOf (config : QRepConfig) (env : CycleEnv) : Bool :=
  (config.writeMode == .overwrite) && env.fullRefreshMode

/-- The tail of the cycle (qrep_flow.go:612-628): drain the signal channel,
fold the pending signals into the active one, set status PAUSED when the
result is Pause, and continue as new. -/
def drainAndContinue (env : CycleEnv) (activeSignal : CDCFlowSignal)
    (state : QRepFlowState) (config : QRepConfig) (ev : List Event) : CycleOutcome :=
  let activeSignal2 := env.drainSignals.foldl FlowSignalHandler activeSignal
  if activeSignal2 = .pause then
    .continueAsNew (updateStatus env.isRoot state .paused).1 config
      (ev ++ (updateStatus env.isRoot state .paused).2)
  else .continueAsNew state config ev

/-- The discovery branch of the cycle (qrep_flow.go:577-609), entered when
the active signal is not Pause: partition discovery, fan-out, consolidation
and cleanup, then either the InitialCopyOnly completion return or the
resync rename, the partition-count increment and the cursor advance.
NOTE: the source passes `state.LastPartition` to `GetQRepPartitions`, not
the locally rewound `lastPartition` (qrep_flow.go:579). -/
def discoverAndProcess (config : QRepConfig) (state : QRepFlowState) (env : CycleEnv)
    (fullRefresh : Bool) (maxParallelWorkers : Nat) (activeSignal : CDCFlowSignal)
    (ev : List Event) : CycleOutcome :=
  let partitions := env.discoveredPartitions
  let ev2 := ev ++ [Event.getPartitions state.lastPartition]
    ++ (processPartitions maxParallelWorkers partitions).map Event.childSpawned
    ++ [Event.consolidate, Event.cleanup]
  if config.initialCopyOnly then
    .continueAsNew (updateStatus env.isRoot state .completed).1 config
      (ev2 ++ (updateStatus env.isRoot state .completed).2)
  else
    let renamed := handleTableRenameForResync config state
    let state2 := renamed.2.1
    let state3 :=
      { state2 with numPartitionsProcessed := state2.numPartitionsProcessed + partitions.length }
    let state4 :=
      if 0 < partitions.length && !fullRefresh then
        { state3 with lastPartition := some (partitions.getLastD InitialLastPartition) }
      else state3
    drainAndContinue env activeSignal state4 renamed.1 (ev2 ++ renamed.2.2)

/-- The cycle body once the pause gate has been passed (qrep_flow.go:545
onward), with the active signal and the events accumulated by the gate. -/
def runningCycle (configIn : QRepConfig) (state : QRepFlowState)
    (activeSignal0 : CDCFlowSignal) (ev0 : List Event) (env : CycleEnv) : CycleOutcome :=
  let created := handleTableCreationForResync configIn state
  let config := created.1
  let ev2 := ev0 ++ setupPhaseEvents configIn ++ created.2
  let fullRefresh := fullRefreshOf config env
  let lastPartition := if fullRefresh then some InitialLastPartition else state.lastPartition
  let waitRan := !config.initialCopyOnly && lastPartition.isSome
  let activeSignal1 :=
    if waitRan then env.waitSignals.foldl FlowSignalHandler activeSignal0 else activeSignal0
  let ev3 := ev2 ++
    (if waitRan then [Event.waitForNewRows (lastPartition.getD InitialLastPartition)] else [])
  if activeSignal1 ≠ .pause then
    discoverAndProcess config state env fullRefresh (defaultMaxParallelWorkers configIn)
      activeSignal1 ev3
  else drainAndContinue env activeSignal1 state config ev3

/-- One cycle of `QRepFlowWorkflow`, from entry to its return (either an
early return or the continue-as-new at the end).  The pause gate
(qrep_flow.go:526-543) blocks on the signal channel while the folded active
signal stays Pause. -/
def QRepFlowWorkflow (configIn : QRepConfig) (stateIn : Option QRepFlowState)
    (env : CycleEnv) : CycleOutcome :=
  let state := stateIn.getD newQRepFlowState
  if state.currentFlowStatus = .completed then .alreadyCompleted state
  else if state.currentFlowStatus = .pausing || state.currentFlowStatus = .paused then
    let paused := updateStatus env.isRoot state .paused
    let a := env.pauseGateSignals.foldl FlowSignalHandler .pause
    if a = .pause then .blockedInPauseGate
    else
      let running := updateStatus env.isRoot paused.1 .running
      runningCycle configIn running.1 a (paused.2 ++ running.2) env
  else runningCycle configIn state .noop [] env

/-- The post-cycle state of an outcome (`none` when the cycle did not end
in a return carrying state). -/
def CycleOutcome.endState : CycleOutcome → Option QRepFlowState
  | .alreadyCompleted s => some s
  | .blockedInPauseGate => none
  | .continueAsNew s _ _ => some s

/-- The post-cycle config of an outcome. -/
def CycleOutcome.endConfig : CycleOutcome → Option QRepConfig
  | .alreadyCompleted _ => none
  | .blockedInPauseGate => none
  | .continueAsNew _ c _ => some c

/-- The external effects an outcome performed. -/
def CycleOutcome.events : CycleOutcome → List Event
  | .alreadyCompleted _ => []
  | .blockedInPauseGate => []
  | .continueAsNew _ _ ev => ev

/-! ## One iteration of `QRepWaitForNewRowsWorkflow` -/

/-- How one iteration of the wait-for-rows loop ends.  `success` carries the
seconds slept before returning (`none` when it returned without sleeping);
`continueAsNewSame` carries the slept seconds and the (unchanged) arguments
it restarts with. -/
inductive WaitIterationOutcome
  | success (sleptSeconds : Option Nat)
  | continueAsNewSame (sleptSeconds : Nat) (config : QRepConfig) (lastPartition : Option QRepPartition)
deriving DecidableEq, Repr

/-- One iteration of `QRepWaitForNewRowsWorkflow` in which the
`QRepHasNewRows` activity succeeds with `hasNewRows` and the setting oracle
reports `oracleFullRefresh`. -/
def QRepWaitForNewRowsWorkflow (config : QRepConfig) (lastPartition : Option QRepPartition)
    (hasNewRows : Bool) (oracleFullRefresh : Bool) : WaitIterationOutcome :=
  let optedForOverwrite := config.writeMode == .overwrite
  let fullRefresh := optedForOverwrite && oracleFullRefresh
  if !hasNewRows || fullRefresh then
    let waitBetweenBatches :=
      if config.waitBetweenBatchesSeconds > 0 then config.waitBetweenBatchesSeconds else 5
    if fullRefresh then .success (some waitBetweenBatches)
    else .continueAsNewSame waitBetweenBatches config lastPartition
  else .success none

/-! ## Dynamic setting resolution (`peerdbenv` package) -/

/-- Result of the `dynamic_settings` catalog query for one key. -/
inductive CatalogResult
  /-- A row was found; `configValue` is NULL-able, `configDefault` is the
  row's `config_default_value` rendered as `pgtype.Text.String` (empty when
  NULL). -/
  | row (configValue : Option String) (configDefault : String)
  /-- `pgx.ErrNoRows`. -/
  | noRows
  /-- Any other query error. -/
  | queryError
deriving DecidableEq, Repr

/-- The process environment of a `dynLookup` call. -/
structure DynEnv where
  /-- Whether `GetCatalogConnectionPoolFromEnv` succeeds. -/
  poolOk : Bool
  /-- The catalog query, per key. -/
  catalog : String → CatalogResult
  /-- `os.LookupEnv`. -/
  osEnv : String → Option String

/-- `dynLookup`: resolve a dynamic setting to its raw string. -/
def dynLookup (env : DynEnv) (key : String) : Except String String :=
  if !env.poolOk then .error "failed to get catalog connection pool"
  else
    match env.catalog key with
    | .queryError => .error "failed to get key"
    | .noRows =>
      match env.osEnv key with
      | some val => .ok val
      | none => .error "failed to get key"
    | .row value defaultValue =>
      match value with
      | some v => .ok v
      | none =>
        match env.osEnv key with
        | some val => .ok val
        | none => .ok defaultValue

/-- Go `strconv.ParseBool`: accepts exactly
1, t, T, TRUE, true, True, 0, f, F, FALSE, false, False. -/
def goParseBool (s : String) : Option Bool :=
  if s = "1" ∨ s = "t" ∨ s = "T" ∨ s = "TRUE" ∨ s = "true" ∨ s = "True" then some true
  else if s = "0" ∨ s = "f" ∨ s = "F" ∨ s = "FALSE" ∨ s = "false" ∨ s = "False" then some false
  else none

/-- Go `strconv.ParseUint(s, 10, 64)`: a non-empty all-digit string whose
value fits in 64 bits. -/
def goParseUint64 (s : String) : Option Nat :=
  if s ≠ "" ∧ s.data.all Char.isDigit then
    let v := s.data.foldl (fun acc c => acc * 10 + (c.toNat - 48)) 0
    if v < 2 ^ 64 then some v else none
  else none

/-- Go `strconv.ParseInt(s, 10, 64)`: an optional sign followed by digits,
within the `int64` range. -/
def goParseInt64 (s : String) : Option Int :=
  let (sign, digits) :=
    match s.data with
    | '+' :: rest => ((1 : Int), rest)
    | '-' :: rest => ((-1 : Int), rest)
    | other => ((1 : Int), other)
  if digits ≠ [] ∧ digits.all Char.isDigit then
    let v : Int := sign * digits.foldl (fun acc c => acc * 10 + (c.toNat - 48 : Int)) 0
    if -(2 ^ 63) ≤ v ∧ v < 2 ^ 63 then some v else none
  else none

/-- `dynamicConfBool`: look the key up, then `strconv.ParseBool` it. -/
def dynamicConfBool (env : DynEnv) (key : String) : Except String Bool :=
  match dynLookup env key with
  | .error e => .error e
  | .ok value =>
    match goParseBool value with
    | some result => .ok result
    | none => .error "failed to parse bool"

/-- `dynamicConfUnsigned`: look the key up, then `strconv.ParseUint` it; the
cast `T(result)` truncates to the caller's unsigned width `bits`. -/
def dynamicConfUnsigned (bits : Nat) (env : DynEnv) (key : String) : Except String Nat :=
  match dynLookup env key with
  | .error e => .error e
  | .ok value =>
    match goParseUint64 value with
    | some result => .ok (result % 2 ^ bits)
    | none => .error "failed to parse as int64"

/-- `dynamicConfSigned`: look the key up, then `strconv.ParseInt` it; the
cast `T(result)` truncates to the caller's signed width `bits` with
wrap-around. -/
def dynamicConfSigned (bits : Nat) (env : DynEnv) (key : String) : Except String Int :=
  match dynLookup env key with
  | .error e => .error e
  | .ok value =>
    match goParseInt64 value with
    | some result => .ok (Int.bmod result (2 ^ bits))
    | none => .error "failed to parse as int64"

/-! ## `RecordItems.toMap` (`model` package, record JSON projection) -/

/-- A Go `float64`/`float32` value, split by the predicates the source
tests (`math.IsNaN`, `math.IsInf`). -/
inductive GoFloat
  | finite (val : Rat)
  | nan
  | posInf
  | negInf
deriving DecidableEq, Repr

/-- `math.IsNaN`. -/
def GoFloat.isNaN : GoFloat → Bool
  | .nan => true
  | _ => false

/-- `math.IsInf(v, 0)`. -/
def GoFloat.isInf : GoFloat → Bool
  | .posInf => true
  | .negInf => true
  | _ => false

/-- A JSON-encodable Go `any` value as produced by `toMap`. -/
inductive JValue
  | null
  | bool (b : Bool)
  | str (s : String)
  | num (q : Rat)
  | arr (xs : List JValue)
deriving Repr

/-- The numeric payload of a finite float; the non-finite arms are
unreachable (the caller tests `isNaN`/`isInf` first). -/
def GoFloat.jnum : GoFloat → JValue
  | .finite q => .num q
  | _ => .null

/-- A `decimal.Decimal`; only its `String()` rendering is observed. -/
structure GoDecimal where
  str : String
deriving DecidableEq, Repr

/-- A `time.Time` instant, opaque to this embedding. -/
def GoTime := Int
deriving instance DecidableEq, Repr for GoTime

/-- A `time.Duration`, opaque to this embedding. -/
def GoDuration := Int
deriving instance DecidableEq, Repr for GoDuration

/-- `types.QValue`, restricted to the cases `toMap` switches on; `other`
stands for every remaining implementation, whose `Value()` is its payload. -/
inductive QValue
  | uuid (val : String)
  | qchar (val : Char)
  | string (val : String)
  | json (val : String)
  | hstore (val : String)
  | timestamp (val : GoTime)
  | timestampTZ (val : GoTime)
  | date (val : GoTime)
  | timeOfDay (val : GoDuration)
  | timeOfDayTZ (val : GoDuration)
  | arrayDate (val : List GoTime)
  | numeric (val : GoDecimal)
  | arrayNumeric (val : List GoDecimal)
  | float64 (val : GoFloat)
  | float32 (val : GoFloat)
  | arrayFloat64 (val : List GoFloat)
  | arrayFloat32 (val : List GoFloat)
  | other (value : JValue)

/-- `model.ToJSONOptions`. -/
structure ToJSONOptions where
  unnestColumns : List String
  hstoreAsJSON : Bool

/-- External Go library calls made by `toMap`, taken as parameters of the
embedding: `json.Unmarshal` into `map[string]any` (`none` = error),
`datatypes.ParseHstore`, and the `time.Time.Format` calls with the source's
layout strings. -/
structure GoExt where
  jsonUnmarshalObject : String → Option (List (String × JValue))
  parseHstore : String → Except String String
  formatTimestamp : GoTime → String
  formatTimestampTZ : GoTime → String
  formatDate : GoTime → String
  formatTimeOfDay : GoDuration → String

/-- `RecordItems`: the `ColToVal` map, as an association list in iteration
order; a `none` value is a nil `QValue` interface. -/
structure RecordItems where
  colToVal : List (String × Option QValue)

/-- The body of `toMap`'s `switch` for one non-nil column value: the list of
entries added to `jsonStruct` (one entry except for unnested JSON columns),
or the error the source returns. -/
def convertQValue (ext : GoExt) (opts : ToJSONOptions) (col : String) (qv : QValue) :
    Except String (List (String × JValue)) :=
  match qv with
  | .uuid v => .ok [(col, .str v)]
  | .qchar v => .ok [(col, .str (String.singleton v))]
  | .string strVal =>
    if strVal.length > 15 * 1024 * 1024 then .ok [(col, .str "")]
    else .ok [(col, .str strVal)]
  | .json v =>
    if v.length > 15 * 1024 * 1024 then .ok [(col, .str "\x7b\x7d")]
    else if col ∈ opts.unnestColumns then
      match ext.jsonUnmarshalObject v with
      | none => .error "json unmarshal error"
      | some unnestStruct => .ok unnestStruct
    else .ok [(col, .str v)]
  | .hstore hstoreVal =>
    if !opts.hstoreAsJSON then .ok [(col, .str hstoreVal)]
    else
      match ext.parseHstore hstoreVal with
      | .error e => .error e
      | .ok jsonVal =>
        if jsonVal.length > 15 * 1024 * 1024 then .ok [(col, .str "")]
        else .ok [(col, .str jsonVal)]
  | .timestamp v => .ok [(col, .str (ext.formatTimestamp v))]
  | .timestampTZ v => .ok [(col, .str (ext.formatTimestampTZ v))]
  | .date v => .ok [(col, .str (ext.formatDate v))]
  | .timeOfDay v => .ok [(col, .str (ext.formatTimeOfDay v))]
  | .timeOfDayTZ v => .ok [(col, .str (ext.formatTimeOfDay v))]
  | .arrayDate dateArr => .ok [(col, .arr (dateArr.map fun v => .str (ext.formatDate v)))]
  | .numeric v => .ok [(col, .str v.str)]
  | .arrayNumeric numericArr => .ok [(col, .arr (numericArr.map fun v => .str v.str))]
  | .float64 v =>
    if v.isNaN || v.isInf then .ok [(col, .null)] else .ok [(col, v.jnum)]
  | .float32 v =>
    if v.isNaN || v.isInf then .ok [(col, .null)] else .ok [(col, v.jnum)]
  | .arrayFloat64 floatArr =>
    .ok [(col, .arr (floatArr.map fun v => if v.isNaN || v.isInf then .null else v.jnum))]
  | .arrayFloat32 floatArr =>
    .ok [(col, .arr (floatArr.map fun v => if v.isNaN || v.isInf then .null else v.jnum))]
  | .other value => .ok [(col, value)]

/-- `RecordItems.toMap`: project every column into its JSON value,
propagating the first conversion error. -/
def RecordItems.toMap (ext : GoExt) (r : RecordItems) (opts : ToJSONOptions) :
    Except String (List (String × JValue)) :=
  go r.colToVal
where
  go : List (String × Option QValue) → Except String (List (String × JValue))
  | [] => .ok []
  | (col, none) :: rest =>
    match go rest with
    | .error e => .error e
    | .ok m => .ok ((col, .null) :: m)
  | (col, some qv) :: rest =>
    match convertQValue ext opts col qv with
    | .error e => .error e
    | .ok entries =>
      match go rest with
      | .error e => .error e
      | .ok m => .ok (entries ++ m)

/-! ## Lemmas about the fan-out chunking -/

theorem chunkListAux_flatten {α : Type _} {n : Nat} (hn : n ≠ 0) (fuel : Nat) :
    ∀ xs : List α, xs.length ≤ fuel → (chunkListAux n fuel xs).flatten = xs := by
  induction fuel with
  | zero =>
    intro xs h
    have hxs : xs = [] := List.eq_nil_of_length_eq_zero (by omega)
    subst hxs
    rfl
  | succ fuel ih =>
    intro xs h
    match xs with
    | [] => rfl
    | x :: rest =>
      simp only [chunkListAux, if_neg hn, List.flatten_cons]
      rw [ih _ (by simp only [List.length_drop, List.length_cons] at h ⊢; omega)]
      exact List.take_append_drop n (x :: rest)

theorem chunkList_flatten {α : Type _} {n : Nat} (hn : n ≠ 0) (xs : List α) :
    (chunkList n xs).flatten = xs :=
  chunkListAux_flatten hn xs.length xs le_rfl

theorem chunkListAux_mem_length {α : Type _} {n : Nat} (hn : 0 < n) (fuel : Nat) :
    ∀ {xs b : List α}, xs.length ≤ fuel → b ∈ chunkListAux n fuel xs →
      0 < b.length ∧ b.length ≤ n := by
  induction fuel with
  | zero =>
    intro xs b h hb
    have hxs : xs = [] := List.eq_nil_of_length_eq_zero (by omega)
    subst hxs
    simp [chunkListAux] at hb
  | succ fuel ih =>
    intro xs b h hb
    match xs with
    | [] => simp [chunkListAux] at hb
    | x :: rest =>
      simp only [chunkListAux] at hb
      rw [if_neg (by omega)] at hb
      rcases List.mem_cons.mp hb with h1 | h1
      · subst h1
        simp only [List.length_take, List.length_cons]
        omega
      · exact ih (by simp only [List.length_drop, List.length_cons] at h ⊢; omega) h1

theorem chunkList_mem_length {α : Type _} {n : Nat} (hn : 0 < n) {xs b : List α}
    (hb : b ∈ chunkList n xs) : 0 < b.length ∧ b.length ≤ n :=
  chunkListAux_mem_length hn xs.length le_rfl hb

theorem divCeil_pos_step {n len : Nat} (hn : 0 < n) (hlen : 0 < len) :
    divCeil len n = 1 + divCeil (len - n) n := by
  unfold divCeil
  rcases le_or_lt len n with h | h
  · have h0 : len - n = 0 := by omega
    have e1 : len + n - 1 = (len - 1) + n := by omega
    have d1 : (len - 1) / n = 0 := Nat.div_eq_of_lt (by omega)
    have d2 : (0 + n - 1) / n = 0 := Nat.div_eq_of_lt (by omega)
    rw [h0, e1, Nat.add_div_right _ hn, d1, d2]
  · have e1 : len + n - 1 = ((len - n - 1) + n) + n := by omega
    have e2 : len - n + n - 1 = (len - n - 1) + n := by omega
    rw [e1, e2, Nat.add_div_right _ hn, Nat.add_div_right _ hn]
    omega

theorem chunkListAux_length {α : Type _} {n : Nat} (hn : 0 < n) (fuel : Nat) :
    ∀ xs : List α, xs.length ≤ fuel → (chunkListAux n fuel xs).length = divCeil xs.length n := by
  induction fuel with
  | zero =>
    intro xs h
    have hxs : xs = [] := List.eq_nil_of_length_eq_zero (by omega)
    subst hxs
    simp only [chunkListAux, List.length_nil]
    exact (Nat.div_eq_of_lt (by omega)).symm
  | succ fuel ih =>
    intro xs h
    match xs with
    | [] =>
      simp only [chunkListAux, List.length_nil]
      exact (Nat.div_eq_of_lt (by omega)).symm
    | x :: rest =>
      have hlen : 0 < (x :: rest).length := by simp
      simp only [chunkListAux]
      rw [if_neg (by omega), List.length_cons,
        ih _ (by simp only [List.length_drop, List.length_cons] at h ⊢; omega),
        List.length_drop, divCeil_pos_step hn hlen]
      omega

theorem chunkList_length {α : Type _} {n : Nat} (hn : 0 < n) (xs : List α) :
    (chunkList n xs).length = divCeil xs.length n :=
  chunkListAux_length hn xs.length xs le_rfl

theorem processPartitions_ne_nil_eq (K : Nat) (P : List QRepPartition) (hP : P ≠ []) :
    processPartitions K P = (chunkList (divCeil P.length K) P).enum.map
      (fun p => { batchId := (p.1 : Int) + 1, partitions := p.2 }) := by
  unfold processPartitions
  rw [if_neg (by simp only [List.isEmpty_iff]; exact hP)]

/-! ## Claim C1 -/

/-- Partitions `p1..p5` of the spec's happy-path example. -/
def examplePartitions : List QRepPartition :=
  [⟨"p1", none⟩, ⟨"p2", none⟩, ⟨"p3", none⟩, ⟨"p4", none⟩, ⟨"p5", none⟩]

/-- A concrete append-mode config used by witnesses. -/
def exampleConfig : QRepConfig :=
  { flowJobName := "f", destinationTableIdentifier := "t", watermarkTable := "w",
    initialCopyOnly := false, dstTableFullResync := false,
    setupWatermarkTableOnDestination := false, maxParallelWorkers := 2,
    waitBetweenBatchesSeconds := 0, writeMode := .append }

/-- A concrete running state with a `p0` cursor used by witnesses. -/
def exampleState : QRepFlowState :=
  { lastPartition := some ⟨"p0", none⟩, numPartitionsProcessed := 7,
    needsResync := true, currentFlowStatus := .running }

/-- A concrete quiet environment discovering `examplePartitions`, used by
witnesses. -/
def exampleEnv : CycleEnv :=
  { isRoot := true, fullRefreshMode := false, pauseGateSignals := [],
    waitSignals := [], discoveredPartitions := examplePartitions,
    drainSignals := [] }

/-- C1 is false as stated: with `MaxParallelWorkers = 2` and five partitions
the fan-out starts 2 children with batches `{1:[p1,p2,p3], 2:[p4,p5]}`, not
the claimed 3 children `{1:[p1,p2], 2:[p3,p4], 3:[p5]}` — the code chunks by
`ceil(len/K)` partitions per slice, so the slice count is
`ceil(len/ceil(len/K))`, not `ceil(len/K)`. -/
theorem c1_counterexample :
    processPartitions 2 examplePartitions =
      [{ batchId := 1, partitions := [⟨"p1", none⟩, ⟨"p2", none⟩, ⟨"p3", none⟩] },
       { batchId := 2, partitions := [⟨"p4", none⟩, ⟨"p5", none⟩] }] ∧
    (processPartitions 2 examplePartitions).length ≠ 3 ∧
    processPartitions 2 examplePartitions ≠
      [{ batchId := 1, partitions := [⟨"p1", none⟩, ⟨"p2", none⟩] },
       { batchId := 2, partitions := [⟨"p3", none⟩, ⟨"p4", none⟩] },
       { batchId := 3, partitions := [⟨"p5", none⟩] }] := by
  decide

/-- C1 (amended): one fan-out cycle over a non-empty partition list `P` with
`K ≥ 1` splits `P` into consecutive order-preserving slices of
`ceil(len(P)/K)` partitions each (the last slice possibly shorter), so into
`ceil(len(P)/ceil(len(P)/K))` slices, assigns them `BatchId = 1, 2, ...` in
order, and starts exactly one child partition workflow per slice; with
`K = 2` and 5 partitions it starts 2 children with batches
`{BatchId=1:[p1,p2,p3], 2:[p4,p5]}`. -/
theorem c1_batching (P : List QRepPartition) (K : Nat) (hP : P ≠ []) (hK : 1 ≤ K) :
    ((processPartitions K P).map QRepPartitionBatch.partitions).flatten = P ∧
    (processPartitions K P).map QRepPartitionBatch.batchId =
      (List.range (processPartitions K P).length).map (fun i : Nat => (i : Int) + 1) ∧
    (processPartitions K P).length = divCeil P.length (divCeil P.length K) ∧
    ∀ b ∈ processPartitions K P,
      0 < b.partitions.length ∧ b.partitions.length ≤ divCeil P.length K := by
  have hlen : 0 < P.length := List.length_pos.mpr hP
  have hcs : 0 < divCeil P.length K := Nat.div_pos (by omega) (by omega)
  have hmap : (processPartitions K P).map QRepPartitionBatch.partitions
      = chunkList (divCeil P.length K) P := by
    rw [processPartitions_ne_nil_eq K P hP, List.map_map]
    exact List.enum_map_snd _
  refine ⟨?_, ?_, ?_, ?_⟩
  · rw [hmap]
    exact chunkList_flatten (by omega) P
  · rw [processPartitions_ne_nil_eq K P hP, List.map_map, List.length_map, List.enum_length]
    have hcomp : (QRepPartitionBatch.batchId ∘ fun p : Nat × List QRepPartition =>
        ({ batchId := (p.1 : Int) + 1, partitions := p.2 } : QRepPartitionBatch)) =
        (fun i : Nat => (i : Int) + 1) ∘ Prod.fst := rfl
    rw [hcomp, ← List.map_map, List.enum_map_fst]
  · calc (processPartitions K P).length
        = ((processPartitions K P).map QRepPartitionBatch.partitions).length :=
          (List.length_map _ _).symm
      _ = (chunkList (divCeil P.length K) P).length := by rw [hmap]
      _ = divCeil P.length (divCeil P.length K) := chunkList_length hcs P
  · intro b hb
    have hmem : b.partitions ∈ (processPartitions K P).map QRepPartitionBatch.partitions :=
      List.mem_map_of_mem _ hb
    rw [hmap] at hmem
    exact chunkList_mem_length hcs hmem

/-- Witness for `c1_batching` at the spec's example input (`K = 2`, five
partitions). -/
theorem c1_batching_witness :
    ((processPartitions 2 examplePartitions).map QRepPartitionBatch.partitions).flatten =
        examplePartitions ∧
    (processPartitions 2 examplePartitions).map QRepPartitionBatch.batchId =
      (List.range (processPartitions 2 examplePartitions).length).map (fun i : Nat => (i : Int) + 1) ∧
    (processPartitions 2 examplePartitions).length =
      divCeil examplePartitions.length (divCeil examplePartitions.length 2) ∧
    ∀ b ∈ processPartitions 2 examplePartitions,
      0 < b.partitions.length ∧ b.partitions.length ≤ divCeil examplePartitions.length 2 :=
  c1_batching examplePartitions 2 (by decide) (by decide)

/-! ## Normal forms of the cycle's sub-steps -/

theorem handleTableCreationForResync_eq (c : QRepConfig) (s : QRepFlowState) :
    handleTableCreationForResync c s =
      ((if s.needsResync && c.dstTableFullResync then
          { c with destinationTableIdentifier :=
              c.destinationTableIdentifier ++ "_peerdb_resync" }
        else c),
       (if s.needsResync && c.dstTableFullResync then
          [Event.createTablesFromExisting (c.destinationTableIdentifier ++ "_peerdb_resync")
            c.destinationTableIdentifier]
        else [])) := by
  unfold handleTableCreationForResync
  split <;> simp

theorem handleTableRenameForResync_eq (c : QRepConfig) (s : QRepFlowState) :
    handleTableRenameForResync c s =
      ((if s.needsResync && c.dstTableFullResync then
          { c with destinationTableIdentifier :=
              goTrimSuffix c.destinationTableIdentifier "_peerdb_resync" }
        else c),
       { s with needsResync := false },
       (if s.needsResync && c.dstTableFullResync then
          [Event.setupTableSchema c.destinationTableIdentifier,
           Event.renameTables c.destinationTableIdentifier
             (goTrimSuffix c.destinationTableIdentifier "_peerdb_resync")]
        else [])) := by
  unfold handleTableRenameForResync
  split <;> simp

theorem drainAndContinue_eq (env : CycleEnv) (a : CDCFlowSignal) (st : QRepFlowState)
    (cfg : QRepConfig) (ev : List Event) :
    drainAndContinue env a st cfg ev =
      .continueAsNew
        (if env.drainSignals.foldl FlowSignalHandler a = .pause then
          (updateStatus env.isRoot st .paused).1
        else st)
        cfg
        (ev ++ (if env.drainSignals.foldl FlowSignalHandler a = .pause then
          (updateStatus env.isRoot st .paused).2
        else [])) := by
  unfold drainAndContinue
  split <;> simp_all

theorem qrepFlowWorkflow_running (cfg : QRepConfig) (st : QRepFlowState) (env : CycleEnv)
    (hrun : st.currentFlowStatus = .running) :
    QRepFlowWorkflow cfg (some st) env = runningCycle cfg st .noop [] env := by
  simp [QRepFlowWorkflow, hrun]

theorem runningCycle_to_discover (cfg : QRepConfig) (st : QRepFlowState) (env : CycleEnv)
    (lp : QRepPartition) (hlp : st.lastPartition = some lp)
    (hico : cfg.initialCopyOnly = false)
    (hnopause : env.waitSignals.foldl FlowSignalHandler .noop ≠ .pause) :
    runningCycle cfg st .noop [] env =
      discoverAndProcess (handleTableCreationForResync cfg st).1 st env
        (fullRefreshOf cfg env) (defaultMaxParallelWorkers cfg)
        (env.waitSignals.foldl FlowSignalHandler .noop)
        (setupPhaseEvents cfg ++ (handleTableCreationForResync cfg st).2 ++
          [Event.waitForNewRows (if fullRefreshOf cfg env then InitialLastPartition else lp)]) := by
  have hwm : (handleTableCreationForResync cfg st).1.writeMode = cfg.writeMode := by
    rw [handleTableCreationForResync_eq]
    split <;> rfl
  have hic : (handleTableCreationForResync cfg st).1.initialCopyOnly = false := by
    rw [handleTableCreationForResync_eq]
    split <;> exact hico
  have hfr : fullRefreshOf (handleTableCreationForResync cfg st).1 env = fullRefreshOf cfg env := by
    unfold fullRefreshOf
    rw [hwm]
  simp only [runningCycle]
  rw [hfr, hic, hlp]
  cases hf : fullRefreshOf cfg env <;>
    simp [hnopause]

theorem creation_initialCopyOnly (cfg : QRepConfig) (st : QRepFlowState) :
    (handleTableCreationForResync cfg st).1.initialCopyOnly = cfg.initialCopyOnly := by
  rw [handleTableCreationForResync_eq]
  split <;> rfl

theorem updateStatus_fst (r : Bool) (s : QRepFlowState) (f : FlowStatus) :
    (updateStatus r s f).1 = { s with currentFlowStatus := f } := rfl

/-! ## Claim C2 -/

/-- C2 is false as stated on the fullRefresh arm: with OVERWRITE mode, the
oracle reporting full refresh, `state.LastPartition = p0` and a non-empty
discovery result, the cycle leaves `LastPartition = p0` — it does not set it
to the sentinel.  The second conjunct shows a further failure of the claim
as stated: an InitialCopyOnly cycle with a non-empty discovery result and no
full refresh also leaves `LastPartition` unchanged instead of advancing it
to the last element. -/
theorem c2_counterexample :
    ((QRepFlowWorkflow
        { flowJobName := "f", destinationTableIdentifier := "t", watermarkTable := "w",
          initialCopyOnly := false, dstTableFullResync := false,
          setupWatermarkTableOnDestination := false, maxParallelWorkers := 2,
          waitBetweenBatchesSeconds := 0, writeMode := .overwrite }
        (some { lastPartition := some ⟨"p0", none⟩, numPartitionsProcessed := 7,
                needsResync := false, currentFlowStatus := .running })
        { isRoot := true, fullRefreshMode := true, pauseGateSignals := [],
          waitSignals := [], discoveredPartitions := [⟨"p1", none⟩],
          drainSignals := [] }).endState.map QRepFlowState.lastPartition =
      some (some ⟨"p0", none⟩) ∧
    (⟨"p0", none⟩ : QRepPartition) ≠ InitialLastPartition) ∧
    ((QRepFlowWorkflow
        { flowJobName := "f", destinationTableIdentifier := "t", watermarkTable := "w",
          initialCopyOnly := true, dstTableFullResync := false,
          setupWatermarkTableOnDestination := false, maxParallelWorkers := 2,
          waitBetweenBatchesSeconds := 0, writeMode := .append }
        (some { lastPartition := some ⟨"p0", none⟩, numPartitionsProcessed := 7,
                needsResync := false, currentFlowStatus := .running })
        { isRoot := true, fullRefreshMode := false, pauseGateSignals := [],
          waitSignals := [], discoveredPartitions := [⟨"p1", none⟩],
          drainSignals := [] }).endState.map QRepFlowState.lastPartition =
      some (some ⟨"p0", none⟩) ∧
    (⟨"p0", none⟩ : QRepPartition) ≠ (⟨"p1", none⟩ : QRepPartition)) := by
  decide

/-- C2 (amended): for every non-InitialCopyOnly cycle of `QRepFlowWorkflow`
that completes without error and is not skipped by a pause signal:
afterwards `state.LastPartition` equals the last element of the cycle's
discovered partition list, unless the list is empty or fullRefresh is set,
in both of which cases `state.LastPartition` is unchanged. -/
theorem c2_lastPartition (cfg : QRepConfig) (st : QRepFlowState) (env : CycleEnv)
    (lp : QRepPartition)
    (hrun : st.currentFlowStatus = .running)
    (hlp : st.lastPartition = some lp)
    (hico : cfg.initialCopyOnly = false)
    (hnopause : env.waitSignals.foldl FlowSignalHandler .noop ≠ .pause) :
    ∃ s' c' ev, QRepFlowWorkflow cfg (some st) env = .continueAsNew s' c' ev ∧
      s'.lastPartition =
        (if env.discoveredPartitions ≠ [] ∧ fullRefreshOf cfg env = false then
          some (env.discoveredPartitions.getLastD InitialLastPartition)
        else st.lastPartition) := by
  rw [qrepFlowWorkflow_running cfg st env hrun,
    runningCycle_to_discover cfg st env lp hlp hico hnopause]
  simp only [discoverAndProcess, creation_initialCopyOnly, hico, Bool.false_eq_true, if_false,
    drainAndContinue_eq, handleTableRenameForResync_eq]
  refine ⟨_, _, _, rfl, ?_⟩
  by_cases hd : env.drainSignals.foldl FlowSignalHandler
      (env.waitSignals.foldl FlowSignalHandler CDCFlowSignal.noop) = .pause <;>
    by_cases hfr : fullRefreshOf cfg env = true <;>
    by_cases hp : env.discoveredPartitions = [] <;>
      simp_all [updateStatus, List.length_pos]

/-- Witness for `c2_lastPartition`: a concrete non-InitialCopyOnly cycle
with five discovered partitions advances the cursor to `p5`. -/
theorem c2_lastPartition_witness :
    ∃ s' c' ev, QRepFlowWorkflow
        { flowJobName := "f", destinationTableIdentifier := "t", watermarkTable := "w",
          initialCopyOnly := false, dstTableFullResync := false,
          setupWatermarkTableOnDestination := false, maxParallelWorkers := 2,
          waitBetweenBatchesSeconds := 0, writeMode := .append }
        (some { lastPartition := some ⟨"p0", none⟩, numPartitionsProcessed := 7,
                needsResync := false, currentFlowStatus := .running })
        { isRoot := true, fullRefreshMode := false, pauseGateSignals := [],
          waitSignals := [], discoveredPartitions := examplePartitions,
          drainSignals := [] } = .continueAsNew s' c' ev ∧
      s'.lastPartition =
        (if examplePartitions ≠ [] ∧ fullRefreshOf
            { flowJobName := "f", destinationTableIdentifier := "t", watermarkTable := "w",
              initialCopyOnly := false, dstTableFullResync := false,
              setupWatermarkTableOnDestination := false, maxParallelWorkers := 2,
              waitBetweenBatchesSeconds := 0, writeMode := .append }
            { isRoot := true, fullRefreshMode := false, pauseGateSignals := [],
              waitSignals := [], discoveredPartitions := examplePartitions,
              drainSignals := [] } = false then
          some (examplePartitions.getLastD InitialLastPartition)
        else some ⟨"p0", none⟩) :=
  c2_lastPartition _ _ _ ⟨"p0", none⟩ rfl rfl rfl (by decide)

/-! ## Claim C4 -/

theorem runningCycle_ico (cfg : QRepConfig) (st : QRepFlowState) (env : CycleEnv)
    (hico : cfg.initialCopyOnly = true) :
    runningCycle cfg st .noop [] env =
      discoverAndProcess (handleTableCreationForResync cfg st).1 st env
        (fullRefreshOf cfg env) (defaultMaxParallelWorkers cfg) .noop
        (setupPhaseEvents cfg ++ (handleTableCreationForResync cfg st).2) := by
  have hic : (handleTableCreationForResync cfg st).1.initialCopyOnly = true := by
    rw [creation_initialCopyOnly]
    exact hico
  have hwm : (handleTableCreationForResync cfg st).1.writeMode = cfg.writeMode := by
    rw [handleTableCreationForResync_eq]
    split <;> rfl
  have hfr : fullRefreshOf (handleTableCreationForResync cfg st).1 env = fullRefreshOf cfg env := by
    unfold fullRefreshOf
    rw [hwm]
  simp only [runningCycle]
  rw [hfr, hic]
  simp

theorem discoverAndProcess_ico (cfg : QRepConfig) (st : QRepFlowState) (env : CycleEnv)
    (fr : Bool) (mpw : Nat) (a : CDCFlowSignal) (ev : List Event)
    (hico : cfg.initialCopyOnly = true) :
    discoverAndProcess cfg st env fr mpw a ev =
      .continueAsNew { st with currentFlowStatus := .completed } cfg
        (ev ++ [Event.getPartitions st.lastPartition]
            ++ (processPartitions mpw env.discoveredPartitions).map Event.childSpawned
            ++ [Event.consolidate, Event.cleanup]
            ++ (updateStatus env.isRoot st .completed).2) := by
  simp only [discoverAndProcess, hico, if_true, updateStatus_fst]

/-- C4 is false as stated for InitialCopyOnly cycles: a successful,
non-skipped InitialCopyOnly cycle that discovered one partition leaves
`NumPartitionsProcessed` at 7 instead of incrementing it to 8 (the workflow
returns at the InitialCopyOnly completion branch before the increment). -/
theorem c4_counterexample :
    (QRepFlowWorkflow
        { flowJobName := "f", destinationTableIdentifier := "t", watermarkTable := "w",
          initialCopyOnly := true, dstTableFullResync := false,
          setupWatermarkTableOnDestination := false, maxParallelWorkers := 2,
          waitBetweenBatchesSeconds := 0, writeMode := .append }
        (some { lastPartition := some ⟨"p0", none⟩, numPartitionsProcessed := 7,
                needsResync := false, currentFlowStatus := .running })
        { isRoot := true, fullRefreshMode := false, pauseGateSignals := [],
          waitSignals := [], discoveredPartitions := [⟨"p1", none⟩],
          drainSignals := [] }).endState.map QRepFlowState.numPartitionsProcessed =
      some 7 := by
  decide

/-- C4 (amended): a successful cycle that is not skipped by a pause signal
and has `InitialCopyOnly` false increments `state.NumPartitionsProcessed` by
exactly the number of partitions discovered in that cycle, exactly once; a
successful `InitialCopyOnly` cycle completes without incrementing it. -/
theorem c4_numPartitionsProcessed (cfg : QRepConfig) (st : QRepFlowState) (env : CycleEnv)
    (lp : QRepPartition)
    (hrun : st.currentFlowStatus = .running)
    (hlp : st.lastPartition = some lp)
    (hnopause : env.waitSignals.foldl FlowSignalHandler .noop ≠ .pause) :
    (cfg.initialCopyOnly = false →
      ∃ s' c' ev, QRepFlowWorkflow cfg (some st) env = .continueAsNew s' c' ev ∧
        s'.numPartitionsProcessed =
          st.numPartitionsProcessed + env.discoveredPartitions.length) ∧
    (cfg.initialCopyOnly = true →
      ∃ s' c' ev, QRepFlowWorkflow cfg (some st) env = .continueAsNew s' c' ev ∧
        s'.numPartitionsProcessed = st.numPartitionsProcessed) := by
  constructor
  · intro hico
    rw [qrepFlowWorkflow_running cfg st env hrun,
      runningCycle_to_discover cfg st env lp hlp hico hnopause]
    simp only [discoverAndProcess, creation_initialCopyOnly, hico, Bool.false_eq_true, if_false,
      drainAndContinue_eq, handleTableRenameForResync_eq]
    refine ⟨_, _, _, rfl, ?_⟩
    by_cases hd : env.drainSignals.foldl FlowSignalHandler
        (env.waitSignals.foldl FlowSignalHandler CDCFlowSignal.noop) = .pause <;>
      simp_all [updateStatus] <;> split <;> rfl
  · intro hico
    rw [qrepFlowWorkflow_running cfg st env hrun, runningCycle_ico cfg st env hico,
      discoverAndProcess_ico _ _ _ _ _ _ _ (by rw [creation_initialCopyOnly]; exact hico)]
    exact ⟨_, _, _, rfl, rfl⟩

/-- Witness for `c4_numPartitionsProcessed`: with five discovered partitions
and `NumPartitionsProcessed = 7` a non-InitialCopyOnly cycle ends at 12. -/
theorem c4_numPartitionsProcessed_witness :
    (exampleConfig.initialCopyOnly = false →
      ∃ s' c' ev, QRepFlowWorkflow exampleConfig (some exampleState) exampleEnv =
          .continueAsNew s' c' ev ∧
        s'.numPartitionsProcessed =
          exampleState.numPartitionsProcessed + exampleEnv.discoveredPartitions.length) ∧
    (exampleConfig.initialCopyOnly = true →
      ∃ s' c' ev, QRepFlowWorkflow exampleConfig (some exampleState) exampleEnv =
          .continueAsNew s' c' ev ∧
        s'.numPartitionsProcessed = exampleState.numPartitionsProcessed) :=
  c4_numPartitionsProcessed exampleConfig exampleState exampleEnv ⟨"p0", none⟩ rfl rfl (by decide)

/-! ## Claim C5 -/

/-- C5: if at cycle start `state.NeedsResync` and `config.DstTableFullResync`
hold with destination identifier `t`, then a successful non-InitialCopyOnly
cycle that is not skipped by a pause signal first creates the shadow table
`t ++ "_peerdb_resync"` and later renames the shadow back over `t`, so that
at cycle end `state.NeedsResync = false` and the config identifier is the
original `t` again — appending and then trimming the `"_peerdb_resync"`
suffix is the identity. -/
theorem c5_resync_roundtrip (cfg : QRepConfig) (st : QRepFlowState) (env : CycleEnv)
    (lp : QRepPartition)
    (hrun : st.currentFlowStatus = .running)
    (hlp : st.lastPartition = some lp)
    (hico : cfg.initialCopyOnly = false)
    (hns : st.needsResync = true)
    (hresync : cfg.dstTableFullResync = true)
    (hnopause : env.waitSignals.foldl FlowSignalHandler .noop ≠ .pause) :
    ∃ s' c' ev, QRepFlowWorkflow cfg (some st) env = .continueAsNew s' c' ev ∧
      s'.needsResync = false ∧
      c'.destinationTableIdentifier = cfg.destinationTableIdentifier ∧
      goTrimSuffix (cfg.destinationTableIdentifier ++ "_peerdb_resync") "_peerdb_resync"
        = cfg.destinationTableIdentifier ∧
      List.Sublist
        [Event.createTablesFromExisting
           (cfg.destinationTableIdentifier ++ "_peerdb_resync")
           cfg.destinationTableIdentifier,
         Event.renameTables (cfg.destinationTableIdentifier ++ "_peerdb_resync")
           cfg.destinationTableIdentifier] ev := by
  rw [qrepFlowWorkflow_running cfg st env hrun,
    runningCycle_to_discover cfg st env lp hlp hico hnopause]
  rw [handleTableCreationForResync_eq]
  simp only [hns, hresync, Bool.and_self, if_true]
  simp only [discoverAndProcess, hico, Bool.false_eq_true, if_false,
    drainAndContinue_eq, handleTableRenameForResync_eq, hns, Bool.and_self, if_true,
    goTrimSuffix_append]
  refine ⟨_, _, _, rfl, ?_, rfl, trivial, ?_⟩
  · by_cases hd : env.drainSignals.foldl FlowSignalHandler
        (env.waitSignals.foldl FlowSignalHandler CDCFlowSignal.noop) = .pause <;>
      simp_all [updateStatus] <;> split <;> rfl
  · simp only [List.append_assoc]
    refine List.sublist_append_of_sublist_right ?_
    refine List.Sublist.cons₂ _ ?_
    refine List.singleton_sublist.mpr ?_
    simp

/-- Witness for `c5_resync_roundtrip` at a concrete resync cycle. -/
theorem c5_resync_roundtrip_witness :
    ∃ s' c' ev, QRepFlowWorkflow { exampleConfig with dstTableFullResync := true }
        (some exampleState) exampleEnv = .continueAsNew s' c' ev ∧
      s'.needsResync = false ∧
      c'.destinationTableIdentifier =
        ({ exampleConfig with dstTableFullResync := true } :
          QRepConfig).destinationTableIdentifier ∧
      goTrimSuffix (({ exampleConfig with dstTableFullResync := true } :
          QRepConfig).destinationTableIdentifier ++ "_peerdb_resync") "_peerdb_resync"
        = ({ exampleConfig with dstTableFullResync := true } :
          QRepConfig).destinationTableIdentifier ∧
      List.Sublist
        [Event.createTablesFromExisting
           (({ exampleConfig with dstTableFullResync := true } :
              QRepConfig).destinationTableIdentifier ++ "_peerdb_resync")
           ({ exampleConfig with dstTableFullResync := true } :
              QRepConfig).destinationTableIdentifier,
         Event.renameTables
           (({ exampleConfig with dstTableFullResync := true } :
              QRepConfig).destinationTableIdentifier ++ "_peerdb_resync")
           ({ exampleConfig with dstTableFullResync := true } :
              QRepConfig).destinationTableIdentifier] ev :=
  c5_resync_roundtrip _ _ _ ⟨"p0", none⟩ rfl rfl rfl rfl rfl (by decide)

/-! ## Claim C6 -/

/-- C6: if partition discovery returns an empty list, the cycle spawns no
child partition workflow, and the consolidation step
(`ConsolidateQRepPartitions` followed by `CleanupQRepFlow`) still runs. -/
theorem c6_empty_partitions (cfg : QRepConfig) (st : QRepFlowState) (env : CycleEnv)
    (lp : QRepPartition)
    (hrun : st.currentFlowStatus = .running)
    (hlp : st.lastPartition = some lp)
    (hempty : env.discoveredPartitions = [])
    (hnopause : env.waitSignals.foldl FlowSignalHandler .noop ≠ .pause) :
    ∃ s' c' ev, QRepFlowWorkflow cfg (some st) env = .continueAsNew s' c' ev ∧
      (∀ b, Event.childSpawned b ∉ ev) ∧
      Event.consolidate ∈ ev ∧ Event.cleanup ∈ ev := by
  rw [qrepFlowWorkflow_running cfg st env hrun]
  cases hico : cfg.initialCopyOnly
  · rw [runningCycle_to_discover cfg st env lp hlp hico hnopause]
    simp only [discoverAndProcess, creation_initialCopyOnly, hico, Bool.false_eq_true, if_false,
      drainAndContinue_eq, handleTableRenameForResync_eq, hempty, processPartitions,
      List.isEmpty_nil, if_true, List.map_nil]
    refine ⟨_, _, _, rfl, ?_, by simp, by simp⟩
    intro b
    simp only [setupPhaseEvents, handleTableCreationForResync_eq, updateStatus]
    split_ifs <;> simp
  · rw [runningCycle_ico cfg st env hico,
      discoverAndProcess_ico _ _ _ _ _ _ _ (by rw [creation_initialCopyOnly]; exact hico)]
    simp only [hempty, processPartitions, List.isEmpty_nil, if_true, List.map_nil]
    refine ⟨_, _, _, rfl, ?_, by simp, by simp⟩
    intro b
    simp only [setupPhaseEvents, handleTableCreationForResync_eq, updateStatus]
    split_ifs <;> simp

/-- Witness for `c6_empty_partitions` at a concrete quiet cycle. -/
theorem c6_empty_partitions_witness :
    ∃ s' c' ev, QRepFlowWorkflow exampleConfig (some exampleState)
        { exampleEnv with discoveredPartitions := [] } = .continueAsNew s' c' ev ∧
      (∀ b, Event.childSpawned b ∉ ev) ∧
      Event.consolidate ∈ ev ∧ Event.cleanup ∈ ev :=
  c6_empty_partitions _ _ _ ⟨"p0", none⟩ rfl rfl rfl (by decide)

/-! ## Claim C9 -/

/-- C9: a successful non-InitialCopyOnly cycle that is not skipped by a
pause signal clears `state.NeedsResync` even when `config.DstTableFullResync`
is false: `NeedsResync` ends up false although no shadow table was created
and no rename was performed (and the config is left unchanged). -/
theorem c9_needsResync_cleared (cfg : QRepConfig) (st : QRepFlowState) (env : CycleEnv)
    (lp : QRepPartition)
    (hrun : st.currentFlowStatus = .running)
    (hlp : st.lastPartition = some lp)
    (hico : cfg.initialCopyOnly = false)
    (hresync : cfg.dstTableFullResync = false)
    (hnopause : env.waitSignals.foldl FlowSignalHandler .noop ≠ .pause) :
    ∃ s' c' ev, QRepFlowWorkflow cfg (some st) env = .continueAsNew s' c' ev ∧
      s'.needsResync = false ∧
      c' = cfg ∧
      (∀ a b, Event.createTablesFromExisting a b ∉ ev) ∧
      (∀ a b, Event.renameTables a b ∉ ev) := by
  rw [qrepFlowWorkflow_running cfg st env hrun,
    runningCycle_to_discover cfg st env lp hlp hico hnopause]
  rw [handleTableCreationForResync_eq]
  simp only [hresync, Bool.and_false, Bool.false_eq_true, if_false]
  simp only [discoverAndProcess, hico, Bool.false_eq_true, if_false,
    drainAndContinue_eq, handleTableRenameForResync_eq, hresync, Bool.and_false]
  refine ⟨_, _, _, rfl, ?_, rfl, ?_, ?_⟩
  · by_cases hd : env.drainSignals.foldl FlowSignalHandler
        (env.waitSignals.foldl FlowSignalHandler CDCFlowSignal.noop) = .pause <;>
      simp_all [updateStatus] <;> split <;> rfl
  · intro a b
    simp only [setupPhaseEvents, updateStatus]
    split_ifs <;> simp
  · intro a b
    simp only [setupPhaseEvents, updateStatus]
    split_ifs <;> simp

/-- Witness for `c9_needsResync_cleared` at a concrete non-resync cycle
whose starting state has `NeedsResync = true`. -/
theorem c9_needsResync_cleared_witness :
    ∃ s' c' ev, QRepFlowWorkflow exampleConfig (some exampleState) exampleEnv =
        .continueAsNew s' c' ev ∧
      s'.needsResync = false ∧
      c' = exampleConfig ∧
      (∀ a b, Event.createTablesFromExisting a b ∉ ev) ∧
      (∀ a b, Event.renameTables a b ∉ ev) :=
  c9_needsResync_cleared _ _ _ ⟨"p0", none⟩ rfl rfl rfl rfl (by decide)

/-! ## Claim C3 -/

/-- C3: the code diverges from the claim.  In an OVERWRITE cycle with the
setting oracle reporting full-refresh and `state.LastPartition = p0`, the
`GetQRepPartitions` activity receives the cursor `p0` and not the sentinel:
the source rewinds only the local `lastPartition` variable and then passes
`state.LastPartition` to discovery (qrep_flow.go:579).  The rewound sentinel
is passed only to the wait-for-rows child (third conjunct), which shows the
rewind was meant to feed discovery. -/
theorem c3_discovery_cursor :
    Event.getPartitions (some ⟨"p0", none⟩) ∈
      (QRepFlowWorkflow { exampleConfig with writeMode := .overwrite }
        (some exampleState) { exampleEnv with fullRefreshMode := true }).events ∧
    Event.getPartitions (some InitialLastPartition) ∉
      (QRepFlowWorkflow { exampleConfig with writeMode := .overwrite }
        (some exampleState) { exampleEnv with fullRefreshMode := true }).events ∧
    Event.waitForNewRows InitialLastPartition ∈
      (QRepFlowWorkflow { exampleConfig with writeMode := .overwrite }
        (some exampleState) { exampleEnv with fullRefreshMode := true }).events := by
  decide

/-! ## Claim C7 -/

/-- C7: one iteration of `QRepWaitForNewRowsWorkflow` returns success
without sleeping iff `QRepHasNewRows` returned true and full-refresh mode
(OVERWRITE write mode with the oracle reporting full refresh) is not in
effect; otherwise it sleeps `WaitBetweenBatchesSeconds` seconds (5 when the
configured value is not positive) and then returns success when full-refresh
is in effect, else continues as new with the same arguments. -/
theorem c7_wait_iteration (config : QRepConfig) (lastPartition : Option QRepPartition)
    (hasNewRows oracleFullRefresh : Bool) :
    (QRepWaitForNewRowsWorkflow config lastPartition hasNewRows oracleFullRefresh
        = .success none ↔
      hasNewRows = true ∧ ((config.writeMode == .overwrite) && oracleFullRefresh) = false) ∧
    (((config.writeMode == .overwrite) && oracleFullRefresh) = true →
      QRepWaitForNewRowsWorkflow config lastPartition hasNewRows oracleFullRefresh
        = .success (some (if config.waitBetweenBatchesSeconds > 0
            then config.waitBetweenBatchesSeconds else 5))) ∧
    (hasNewRows = false → ((config.writeMode == .overwrite) && oracleFullRefresh) = false →
      QRepWaitForNewRowsWorkflow config lastPartition hasNewRows oracleFullRefresh
        = .continueAsNewSame (if config.waitBetweenBatchesSeconds > 0
            then config.waitBetweenBatchesSeconds else 5) config lastPartition) := by
  unfold QRepWaitForNewRowsWorkflow
  cases hasNewRows <;> cases hov : (config.writeMode == .overwrite) <;>
    cases oracleFullRefresh <;> simp_all

/-- Witness for `c7_wait_iteration`: with no new rows and no full refresh, a
configured wait of 0 seconds sleeps the default 5 seconds and continues as
new with the same arguments. -/
theorem c7_wait_iteration_witness :
    QRepWaitForNewRowsWorkflow exampleConfig (some ⟨"p0", none⟩) false false
      = .continueAsNewSame 5 exampleConfig (some ⟨"p0", none⟩) :=
  (c7_wait_iteration exampleConfig (some ⟨"p0", none⟩) false false).2.2 rfl rfl

/-! ## Claim C8 -/

/-- C8 is false as stated: when no catalog row exists for the key and the
environment variable is unset, the resolver fails with a lookup error
instead of falling back to a typed default — although the resolved value
never failed to parse. -/
theorem c8_counterexample :
    dynamicConfBool
      { poolOk := true, catalog := fun _ => .noRows, osEnv := fun _ => none }
      "PEERDB_QREP_OVERWRITE_FULL_REFRESH_MODE" = .error "failed to get key" := rfl

/-- C8 (amended): resolution returns the catalog row's value when a row
exists with a non-NULL value; when the row exists with a NULL value it falls
back to the environment variable and then to the row's own
`config_default_value` column; when no row exists it falls back to the
environment variable and otherwise fails with a lookup error (there is no
typed default); the typed reader then fails exactly when the lookup failed
or the resolved string does not parse as the requested type. -/
theorem c8_resolution (env : DynEnv) (key : String) :
    (env.poolOk = false →
      dynLookup env key = .error "failed to get catalog connection pool") ∧
    (env.poolOk = true →
      (∀ v d, env.catalog key = .row (some v) d → dynLookup env key = .ok v) ∧
      (∀ d e, env.catalog key = .row none d → env.osEnv key = some e →
        dynLookup env key = .ok e) ∧
      (∀ d, env.catalog key = .row none d → env.osEnv key = none →
        dynLookup env key = .ok d) ∧
      (∀ e, env.catalog key = .noRows → env.osEnv key = some e →
        dynLookup env key = .ok e) ∧
      (env.catalog key = .noRows → env.osEnv key = none →
        dynLookup env key = .error "failed to get key") ∧
      (env.catalog key = .queryError → dynLookup env key = .error "failed to get key")) ∧
    (∀ v, dynLookup env key = .ok v →
      dynamicConfBool env key =
        (match goParseBool v with
         | some result => .ok result
         | none => .error "failed to parse bool")) ∧
    (∀ e, dynLookup env key = .error e → dynamicConfBool env key = .error e) := by
  refine ⟨fun h => by simp [dynLookup, h], fun h => ?_, fun v hv => ?_, fun e he => ?_⟩
  · refine ⟨fun v d hc => by simp [dynLookup, h, hc],
      fun d e hc ho => by simp [dynLookup, h, hc, ho],
      fun d hc ho => by simp [dynLookup, h, hc, ho],
      fun e hc ho => by simp [dynLookup, h, hc, ho],
      fun hc ho => by simp [dynLookup, h, hc, ho],
      fun hc => by simp [dynLookup, h, hc]⟩
  · simp [dynamicConfBool, hv]
  · simp [dynamicConfBool, he]

/-- A catalog with a NULL-valued row whose default column is "true", and an
empty process environment; used by the witness. -/
def nullValueRowEnv : DynEnv :=
  { poolOk := true, catalog := fun _ => .row none "true", osEnv := fun _ => none }

/-- Witness for `c8_resolution`: a catalog row with NULL value and no
environment variable resolves to the row's default column, which then parses
as a bool. -/
theorem c8_resolution_witness :
    dynLookup nullValueRowEnv "K" = .ok "true" ∧
    dynamicConfBool nullValueRowEnv "K" = .ok true := by
  have h1 := ((c8_resolution nullValueRowEnv "K").2.1 rfl).2.2.1 "true" rfl rfl
  have h2 := (c8_resolution nullValueRowEnv "K").2.2.1 "true" h1
  exact ⟨h1, h2⟩

/-! ## Claim C10 -/

/-- C10: the `RecordItems` JSON projection silently substitutes rather than
failing: a string column longer than `15*1024*1024` becomes the empty
string, a JSON column longer than that becomes the empty object string, and
NaN or infinite float64/float32 values — also as elements of float arrays —
become JSON null. -/
theorem c10_lossy_serialization (ext : GoExt) (opts : ToJSONOptions) (col : String)
    (s js : String) (hs : s.length > 15 * 1024 * 1024) (hjs : js.length > 15 * 1024 * 1024)
    (f : GoFloat) (hf : (f.isNaN || f.isInf) = true) (q : Rat) :
    RecordItems.toMap ext ⟨[(col, some (.string s))]⟩ opts = .ok [(col, .str "")] ∧
    RecordItems.toMap ext ⟨[(col, some (.json js))]⟩ opts = .ok [(col, .str "\x7b\x7d")] ∧
    RecordItems.toMap ext ⟨[(col, some (.float64 f))]⟩ opts = .ok [(col, .null)] ∧
    RecordItems.toMap ext ⟨[(col, some (.float32 f))]⟩ opts = .ok [(col, .null)] ∧
    RecordItems.toMap ext ⟨[(col, some (.arrayFloat64 [.finite q, f]))]⟩ opts =
      .ok [(col, .arr [.num q, .null])] ∧
    RecordItems.toMap ext ⟨[(col, some (.arrayFloat32 [f, .finite q]))]⟩ opts =
      .ok [(col, .arr [.null, .num q])] := by
  cases f
  case finite q2 => simp [GoFloat.isNaN, GoFloat.isInf] at hf
  all_goals refine ⟨?_, ?_, ?_, ?_, ?_, ?_⟩ <;>
    simp [RecordItems.toMap, RecordItems.toMap.go, convertQValue, hs, hjs,
      GoFloat.isNaN, GoFloat.isInf, GoFloat.jnum]

/-- A trivial instantiation of the external Go calls, used by the witness. -/
def trivialGoExt : GoExt :=
  { jsonUnmarshalObject := fun _ => none,
    parseHstore := fun _ => .ok "",
    formatTimestamp := fun _ => "",
    formatTimestampTZ := fun _ => "",
    formatDate := fun _ => "",
    formatTimeOfDay := fun _ => "" }

/-- A string one byte over the 15 MiB substitution threshold. -/
def bigString : String := ⟨List.replicate (15 * 1024 * 1024 + 1) 'a'⟩

theorem bigString_length : bigString.length = 15 * 1024 * 1024 + 1 := by
  show (List.replicate (15 * 1024 * 1024 + 1) 'a').length = _
  rw [List.length_replicate]

/-- Witness for `c10_lossy_serialization` at a concrete over-limit string
and a NaN float. -/
theorem c10_lossy_serialization_witness :
    RecordItems.toMap trivialGoExt ⟨[("c", some (.string bigString))]⟩ ⟨[], true⟩ =
      .ok [("c", .str "")] ∧
    RecordItems.toMap trivialGoExt ⟨[("c", some (.json bigString))]⟩ ⟨[], true⟩ =
      .ok [("c", .str "\x7b\x7d")] ∧
    RecordItems.toMap trivialGoExt ⟨[("c", some (.float64 .nan))]⟩ ⟨[], true⟩ =
      .ok [("c", .null)] ∧
    RecordItems.toMap trivialGoExt ⟨[("c", some (.float32 .nan))]⟩ ⟨[], true⟩ =
      .ok [("c", .null)] ∧
    RecordItems.toMap trivialGoExt ⟨[("c", some (.arrayFloat64 [.finite 1, .nan]))]⟩ ⟨[], true⟩ =
      .ok [("c", .arr [.num 1, .null])] ∧
    RecordItems.toMap trivialGoExt ⟨[("c", some (.arrayFloat32 [.nan, .finite 1]))]⟩ ⟨[], true⟩ =
      .ok [("c", .arr [.null, .num 1])] :=
  c10_lossy_serialization trivialGoExt ⟨[], true⟩ "c" bigString bigString
    (by rw [bigString_length]; omega) (by rw [bigString_length]; omega) .nan rfl 1

end PeerDB

